import Mathlib

/-!
Verification development for the Alexa_W voice-assistant repository.

Each definition below is a shallow embedding of a concrete piece of the
Python source (file and line references are given in the doc comments).
Machine floats that only ever take part in order comparisons and sums are
modelled as rationals; wall-clock instants are modelled as explicit
numeric parameters; external collaborators (gRPC peers, the GPU, the
audio device, the Whisper and Kokoro models) are modelled as value
parameters or Bool/Option inputs describing their observable behaviour.
-/

namespace AlexaW

/-! ## Basic enumerations (src/services/loader_service.py, lines 28-36) -/

/-- System state enumeration of the loader (`SystemState` in
src/services/loader_service.py, lines 28-36). -/
inductive SystemState where
  | INITIALIZING
  | PHASE_1
  | PHASE_2
  | PHASE_3
  | IDLE
  | DIALOG
  | ERROR
  deriving DecidableEq

/-- Health states reported by the readiness probe
(grpc_health strings as converted in loader_service.py, lines 424-432). -/
inductive Health where
  | SERVING
  | NOT_SERVING
  | UNKNOWN
  deriving DecidableEq

/-! ## GPU guardrail (src/services/loader_service.py, lines 67-79) -/

/-- Result of `GPUMonitor.get_gpu_memory` as consumed by
`PhaseController.check_vram` (loader_service.py, lines 70-75). -/
structure VramInfo where
  free_mb : Nat
  used_mb : Nat
  deriving DecidableEq

/-- `PhaseController.check_vram` (loader_service.py, lines 67-79):
returns true iff memory info is available and `free_mb >= min_vram_mb`;
any exception (including an unavailable monitor) yields false.
This function is DEFINED by the source but — as `loaderSetup` below
shows — it is never invoked on the startup path (the call at
loader_service.py, lines 334-337 is commented out). -/
def checkVram (vramInfo : Option VramInfo) (minVramMb : Nat) : Bool :=
  match vramInfo with
  | some info => decide (info.free_mb ≥ minVramMb)
  | none => false

/-! ## Sequential startup (src/services/loader_service.py, lines 291-452) -/

/-- Observable environment of one boot run: whether the Ollama server
comes up (lines 304-307), whether the model preload succeeds
(lines 309-312), whether each worker process spawns (`start_service`,
lines 785-823), and the health status each worker's probe reports at
poll tick `k` (one tick per 500 ms sleep, lines 423-434). The measured
free GPU memory and the configured floor are carried so that theorems
can relate the boot outcome to them. -/
structure BootEnv where
  ollamaOk : Bool
  preloadOk : Bool
  spawnOk : String → Bool
  health : String → Nat → Health
  freeVramMb : Nat
  minVramMb : Nat

/-- The polling loop of `start_and_wait_for_service`
(loader_service.py, lines 420-434): check the probe once per 500 ms
tick, return true on the first `SERVING`, give up when the tick budget
(2 ticks per configured second) is exhausted. -/
def pollTicks (health : Nat → Health) : Nat → Nat → Bool
  | _, 0 => false
  | k, r + 1 => if health k = Health.SERVING then true else pollTicks health (k + 1) r

/-- `LoaderService.start_and_wait_for_service` (loader_service.py,
lines 389-452): spawn the process, then poll every 500 ms until
`SERVING` or until `timeout_seconds` (2 polls per second) elapses. -/
def startAndWait (env : BootEnv) (name : String) (timeoutSeconds : Nat) : Bool :=
  if env.spawnOk name = true then pollTicks (env.health name) 0 (2 * timeoutSeconds) else false

/-- Default `timeout_seconds` of `start_and_wait_for_service`
(loader_service.py, line 389). -/
def defaultTimeoutSeconds : Nat := 10

/-- The start order and per-worker timeout actually used by
`LoaderService.setup` (loader_service.py, lines 314-367): logger and
kwd and llm use the default 10 s (no explicit argument at lines 318,
343, 357), stt and tts pass 30 s explicitly (lines 350, 364). -/
def fullStartOrder : List (String × Nat) :=
  [("logger", defaultTimeoutSeconds),
   ("kwd", defaultTimeoutSeconds),
   ("stt", 30),
   ("llm", defaultTimeoutSeconds),
   ("tts", 30)]

/-- Boot outcome: the final `system_state`, the sequence of
(worker, timeout) start attempts in order, and whether a
`vram_guardrail` log record was emitted during startup. -/
structure SetupResult where
  state : SystemState
  attempts : List (String × Nat)
  vramGuardrailLogged : Bool
  deriving DecidableEq

/-- `LoaderService.setup` (loader_service.py, lines 291-387): start
Ollama, preload the model, then start logger, kwd, stt, llm, tts
strictly sequentially, aborting to `ERROR` on the first failure and
entering `IDLE` after the last worker reports `SERVING`. The VRAM
check before starting services (lines 334-337) is commented out in the
source, so no branch of this function consults `freeVramMb`,
`minVramMb` or `checkVram`, and no branch emits a `vram_guardrail`
record. -/
def loaderSetup (env : BootEnv) : SetupResult :=
  if env.ollamaOk = true then
    if env.preloadOk = true then
      if startAndWait env "logger" defaultTimeoutSeconds = true then
        if startAndWait env "kwd" defaultTimeoutSeconds = true then
          if startAndWait env "stt" 30 = true then
            if startAndWait env "llm" defaultTimeoutSeconds = true then
              if startAndWait env "tts" 30 = true then
                ⟨SystemState.IDLE, fullStartOrder, false⟩
              else ⟨SystemState.ERROR, fullStartOrder, false⟩
            else ⟨SystemState.ERROR, fullStartOrder.take 4, false⟩
          else ⟨SystemState.ERROR, fullStartOrder.take 3, false⟩
        else ⟨SystemState.ERROR, fullStartOrder.take 2, false⟩
      else ⟨SystemState.ERROR, fullStartOrder.take 1, false⟩
    else ⟨SystemState.ERROR, [], false⟩
  else ⟨SystemState.ERROR, [], false⟩

/-- A boot environment in which every external step succeeds and every
probe reports `SERVING` immediately, but measured free GPU memory
(292 MiB) is far below the configured floor (8000 MiB). -/
def belowFloorEnv : BootEnv :=
  ⟨true, true, fun _ => true, fun _ _ => Health.SERVING, 292, 8000⟩

/-- A healthy boot environment with ample free GPU memory. -/
def allServingEnv : BootEnv :=
  ⟨true, true, fun _ => true, fun _ _ => Health.SERVING, 10000, 8000⟩

/-! ## Dialog loop of the orchestrator
(src/services/loader_service.py, lines 494-702) -/

/-- Python `str.strip()` on the default whitespace set: drop leading and
trailing whitespace characters. -/
def pyStrip (s : String) : String :=
  String.mk (((s.data.dropWhile Char.isWhitespace).reverse.dropWhile Char.isWhitespace).reverse)

/-- Observable RPC-level actions performed by the dialog loop of the
loader, in program order. -/
inductive DAction where
  | sttStopCall (dialogId : String)
  | cancelTimer
  | llmCompleteCall (text : String)
  | ttsSpeakCall (text : String)
  | ttsSpeakStreamCall
  | startFollowUpTimer
  | endDialog
  deriving DecidableEq

/-- The fixed error-prompts table of `LoaderService.play_error_prompt`
(loader_service.py, lines 635-642); an unknown key maps to the
`general_error` prompt. -/
def errorPromptFor (errType : String) : String :=
  if errType = "stt_error" then "Sorry, I didn\x27t catch that."
  else if errType = "llm_error" then "Sorry, I had a problem thinking about that."
  else if errType = "tts_error" then "Sorry, I\x27m having trouble speaking."
  else "Sorry, something went wrong."

/-- `LoaderService.play_error_prompt` (loader_service.py, lines
633-658): speak the prompt for `errType` through V.Speak, then re-arm
the 4 s follow-up timer; if the Speak RPC itself raises, force the end
of the dialog (`on_follow_up_timeout`) instead. -/
def playErrorPrompt (errType : String) (speakRaises : Bool) : List DAction :=
  if speakRaises = true then
    [DAction.ttsSpeakCall (errorPromptFor errType), DAction.endDialog]
  else
    [DAction.ttsSpeakCall (errorPromptFor errType), DAction.startFollowUpTimer]

/-- External behaviour of one dialog turn as seen by
`process_user_input`: whether the M.Complete stream raises a gRPC
error, the (text, eot) chunks it yields otherwise, whether the
V.SpeakStream response reports success, and whether a V.Speak used for
an error prompt raises. -/
structure TurnEnv where
  llmRaises : Bool
  llmChunks : List (String × Bool)
  ttsOk : Bool
  speakRaises : Bool

/-- `LoaderService.process_user_input` (loader_service.py, lines
556-631) as the sequence of RPC actions it performs: stop S, cancel
any follow-up timer, and then either (empty or whitespace-only input,
lines 566-570) play the `stt_error` apology and return without ever
opening M.Complete, or bridge M.Complete into V.SpeakStream
(lines 572-627), mapping an RpcError to `llm_error`, an empty chunk
stream to the generic except branch (`general_error`), and a failed
SpeakStream response to `tts_error`. -/
def processUserInput (env : TurnEnv) (dialogId userText : String) : List DAction :=
  [DAction.sttStopCall dialogId, DAction.cancelTimer] ++
    (if userText = "" ∨ pyStrip userText = "" then
      playErrorPrompt "stt_error" env.speakRaises
    else
      DAction.llmCompleteCall userText ::
        (if env.llmRaises = true then playErrorPrompt "llm_error" env.speakRaises
         else if env.llmChunks.any (fun c => decide (c.1 ≠ "")) = false then
           playErrorPrompt "general_error" env.speakRaises
         else
           DAction.ttsSpeakStreamCall ::
             (if env.ttsOk = true then [DAction.startFollowUpTimer]
              else playErrorPrompt "tts_error" env.speakRaises)))

/-- `LoaderService.handle_wake_event` (loader_service.py, lines
494-534) restricted to its state decision: a wake event received while
the system is not `IDLE` is ignored (lines 497-499); otherwise the
state moves to `DIALOG` and a new dialog is created through
`L.NewDialog` (lines 502-510). Returns (new state, dialog created?). -/
def handleWakeEvent (state : SystemState) : SystemState × Bool :=
  if state = SystemState.IDLE then (SystemState.DIALOG, true) else (state, false)

/-! ## Wake detector (src/services/kwd_service.py, lines 90-410) -/

/-- Mutable state of `WakeDetector` relevant to detection:
`self.enabled`, `self.in_dialog`, `self.last_detection_time`
(kwd_service.py, lines 117-132). -/
structure KwdState where
  enabled : Bool
  inDialog : Bool
  lastDetectionMs : Nat
  deriving DecidableEq

/-- One entry of the detector's event queue, together with the fact of
whether `L.NewDialog` was invoked while handling the detection
(`_handle_wake_detection`, kwd_service.py, lines 290-356, step 2 at
lines 316-323 creates a dialog unconditionally). Confidence scores are
modelled as rationals. -/
structure WakeEmission where
  confidence : ℚ
  timestampMs : Nat
  dialogCreated : Bool
  deriving DecidableEq

/-- One iteration of `WakeDetector._audio_processing_loop`
(kwd_service.py, lines 208-253) on an audio chunk whose best model
score is `score` at time `tMs`: skip when disabled (lines 217-218) or
within the cooldown window (lines 220-223); on `score >= threshold`
run `_handle_wake_detection` — which speaks a confirmation, creates a
dialog via `L.NewDialog`, starts S, disables the detector
(`self.stop()`, line 338) and enqueues the wake event — then record
the detection time. -/
def kwdProcessChunk (threshold : ℚ) (cooldownMs : Nat) (st : KwdState) (tMs : Nat)
    (score : ℚ) : KwdState × Option WakeEmission :=
  if st.enabled = false then (st, none)
  else if tMs - st.lastDetectionMs < cooldownMs then (st, none)
  else if threshold ≤ score then
    (⟨false, true, tMs⟩, some ⟨score, tMs, true⟩)
  else (st, none)

/-- The audio processing loop over a trace of (time, score) chunks,
collecting the emitted wake events in order. -/
def runKwdLoop (threshold : ℚ) (cooldownMs : Nat) (st : KwdState) :
    List (Nat × ℚ) → KwdState × List WakeEmission
  | [] => (st, [])
  | (t, s) :: rest =>
    let step := kwdProcessChunk threshold cooldownMs st t s
    let tail := runKwdLoop threshold cooldownMs step.1 rest
    (tail.1, step.2.toList ++ tail.2)

/-- `WakeDetector.stop` (kwd_service.py, lines 383-394): set
`self.enabled = False` and return True. -/
def wakeStop (st : KwdState) : KwdState × Bool :=
  (⟨false, st.inDialog, st.lastDetectionMs⟩, true)

/-- A boot-time scenario: the loader is still in its startup sequence
(`system_state` stays `INITIALIZING` until line 379 of
loader_service.py), while the wake detector — enabled by default as
soon as its own service initializes (kwd_service.py, line 171) —
processes a chunk scoring 0.9 against the default threshold 0.6.
Returns the loader state at that moment and the number of dialogs
created by the detector. -/
def startupWakeScenario : SystemState × Nat :=
  let run := runKwdLoop ((6 : ℚ) / 10) 1000 ⟨true, false, 0⟩ [(5000, (9 : ℚ) / 10)]
  (SystemState.INITIALIZING, run.2.countP (fun e => e.dialogCreated))

/-! ## Speech recognizer stop path
(src/services/stt_service.py, lines 440-600) -/

/-- One entry of `self.active_sessions` (stt_service.py, lines
531-539), reduced to the fields `stop_recognition` reads: the
accumulated `audio_buffer` (samples modelled as integers) and the
`finalized` flag. -/
structure SttSession where
  audio : List Int
  finalized : Bool
  deriving DecidableEq

/-- A final `SttResult` as assembled by `_finalize_recognition`
(stt_service.py, lines 474-481). -/
structure SttResultM where
  text : String
  final : Bool
  dialogId : String
  deriving DecidableEq

/-- The three per-dialog dictionaries of `SpeechRecognizer` touched by
`stop_recognition` (stt_service.py, lines 569-594). -/
structure SttState where
  activeSessions : String → Option SttSession
  audioBuffers : String → Option (List Int)
  resultQueues : String → Option (List SttResultM)

/-- Deletion of a key from a Python dict, as a map update. -/
def eraseKey {α : Type} (m : String → Option α) (d : String) : String → Option α :=
  fun k => if k = d then none else m k

/-- `SpeechRecognizer.stop_recognition` (stt_service.py, lines
553-600): if an unfinalized session exists for `dialogId`, move all
buffered audio into it and run `_finalize_recognition` — transcribe
(the Whisper call is the external parameter `transcribe`) and put one
final result on the dialog's result queue if that queue exists — then
delete the session, the audio buffer and the result queue, and return
True. Returns (new state, results emitted, return value). -/
def sttStopRecognition (transcribe : List Int → String) (st : SttState) (dialogId : String) :
    SttState × List SttResultM × Bool :=
  let cleaned : SttState :=
    ⟨eraseKey st.activeSessions dialogId, eraseKey st.audioBuffers dialogId,
      eraseKey st.resultQueues dialogId⟩
  match st.activeSessions dialogId with
  | none => (cleaned, [], true)
  | some session =>
    if session.finalized = true then (cleaned, [], true)
    else
      let audio := session.audio ++ (match st.audioBuffers dialogId with
        | some b => b
        | none => [])
      let result : SttResultM := ⟨transcribe audio, true, dialogId⟩
      let emitted := match st.resultQueues dialogId with
        | some _ => [result]
        | none => []
      (cleaned, emitted, true)

/-! ## Log sink: dialog identifiers
(src/services/logger/logger_service.py, lines 163-190) -/

/-- Three-character zero-padded decimal rendering, modelling
`str(x).zfill(3)` for the argument `timestamp_ms % 1000 < 1000`
(logger_service.py, line 176). -/
def zfill3 (n : Nat) : String :=
  String.mk [Nat.digitChar (n / 100 % 10), Nat.digitChar (n / 10 % 10), Nat.digitChar (n % 10)]

/-- Decimal rendering zero-padded on the left to width `w`, modelling
the fixed-width fields of `strftime`. -/
def padLeft (w n : Nat) : String :=
  let s := toString n
  String.mk (List.replicate (w - s.length) '0') ++ s

/-- Civil date (year, month, day) of a day count since 1970-01-01
(proleptic Gregorian), the standard era-based conversion underlying
`datetime.fromtimestamp`. -/
def civilFromDays (z : Nat) : Nat × Nat × Nat :=
  let z' := z + 719468
  let era := z' / 146097
  let doe := z' % 146097
  let yoe := (doe - doe / 1460 + doe / 36524 - doe / 146096) / 365
  let y := yoe + era * 400
  let doy := doe - (365 * yoe + yoe / 4 - yoe / 100)
  let mp := (5 * doy + 2) / 153
  let d := doy - (153 * mp + 2) / 5 + 1
  let m := if mp < 10 then mp + 3 else mp - 9
  (if m ≤ 2 then y + 1 else y, m, d)

/-- The `strftime('%Y%m%d_%H%M%S_')` part of the dialog identifier
(logger_service.py, lines 175-176), applied to the civil time of epoch
second `s` shifted by the process's timezone offset `tz` (in seconds;
`datetime.fromtimestamp` uses local time). -/
def dialogIdStem (tz s : Nat) : String :=
  let ls := s + tz
  let ymd := civilFromDays (ls / 86400)
  let sod := ls % 86400
  padLeft 4 ymd.1 ++ padLeft 2 ymd.2.1 ++ padLeft 2 ymd.2.2 ++ "_" ++
    padLeft 2 (sod / 3600) ++ padLeft 2 (sod % 3600 / 60) ++ padLeft 2 (sod % 60) ++ "_"

/-- The dialog identifier computed by `LogManager.new_dialog`
(logger_service.py, lines 172-176):
`strftime('%Y%m%d_%H%M%S_') + str(timestamp_ms % 1000).zfill(3)`.
It is a pure function of the request timestamp — `new_dialog` keeps no
counter or other per-process uniquifier. -/
def newDialogId (tz timestampMs : Nat) : String :=
  dialogIdStem tz (timestampMs / 1000) ++ zfill3 (timestampMs % 1000)

/-- The only mutable state `new_dialog` touches: the
`self.dialog_files` mapping (logger_service.py, line 183). -/
structure LMState where
  dialogFiles : List (String × String)
  deriving DecidableEq

/-- One `LogManager.new_dialog` call (logger_service.py, lines
163-190): compute the identifier from the timestamp, derive the file
path, record it in `dialog_files`, and return (dialog_id, file_path)
with the new state. -/
def newDialogCall (dialogLogStem : String) (tz : Nat) (st : LMState) (timestampMs : Nat) :
    (String × String) × LMState :=
  let id := newDialogId tz timestampMs
  let path := dialogLogStem ++ id ++ ".log"
  ((id, path), ⟨st.dialogFiles ++ [(id, path)]⟩)

/-! ## Loader shutdown (src/services/loader_service.py, lines 899-946) -/

/-- State touched by `LoaderService.cleanup` and `_signal_handler`:
the `self.stopping` latch, the follow-up timer, which child services
are running, and the Ollama server process. -/
structure ShutdownState where
  stopping : Bool
  timerActive : Bool
  childRunning : String → Bool
  ollamaRunning : Bool

/-- `LoaderService.cleanup` (loader_service.py, lines 899-925): return
immediately when `self.stopping` is already set; otherwise set it,
cancel the follow-up timer, force-stop every child service, and stop
the Ollama server. -/
def loaderCleanup (st : ShutdownState) : ShutdownState :=
  if st.stopping = true then st
  else ⟨true, false, fun _ => false, false⟩

/-- `LoaderService._signal_handler` (loader_service.py, lines
927-946): return immediately when already stopping; otherwise set the
latch and kill every child process. -/
def loaderSignalHandler (st : ShutdownState) : ShutdownState :=
  if st.stopping = true then st
  else ⟨true, st.timerActive, fun _ => false, st.ollamaRunning⟩

/-! ## Service table and GetPids
(src/services/loader_service.py, lines 215-223 and 825-861) -/

/-- The fields of `ServiceInfo` read by `GetPids`, `stop_service` and
the crash path: the cached `pid`, whether `self.process` is set,
whether `process.poll()` still returns None (the process is alive),
and whether a health client is open. -/
structure ProcService where
  pid : Option Nat
  hasProcess : Bool
  alive : Bool
  hasHealthClient : Bool
  deriving DecidableEq

/-- The body of the `GetPids` loop (loader_service.py, lines 219-221):
`if service.pid: pids[name] = service.pid` — a stored, non-zero pid is
reported whether or not the process still runs. -/
def pidEntry (p : String × ProcService) : Option (String × Nat) :=
  match p.2.pid with
  | some q => if q = 0 then none else some (p.1, q)
  | none => none

/-- `LoaderServicer.GetPids` (loader_service.py, lines 215-223). -/
def getPids (svcs : List (String × ProcService)) : List (String × Nat) :=
  svcs.filterMap pidEntry

/-- The per-service effect of `LoaderService.stop_service`
(loader_service.py, lines 836-856): only when a process handle exists
and `poll()` is None does it kill the process and clear
`service.process` and `service.pid`; in every case it closes the
health client. -/
def stopServiceInfo (s : ProcService) : ProcService :=
  if s.hasProcess = true ∧ s.alive = true then ⟨none, false, false, false⟩
  else ⟨s.pid, s.hasProcess, s.alive, false⟩

/-- `LoaderService.stop_service` (loader_service.py, lines 825-861)
over the service table: unknown names return False (line 834);
otherwise the named entry is updated and True is returned. -/
def stopService (svcs : List (String × ProcService)) (n : String) :
    List (String × ProcService) × Bool :=
  if svcs.any (fun p => p.1 == n) = true then
    (svcs.map (fun p => if p.1 == n then (p.1, stopServiceInfo p.2) else p), true)
  else (svcs, false)

/-- A worker process exiting on its own (crash): `process.poll()`
starts returning an exit code, and nothing in the loader clears the
cached `service.pid`. -/
def crashService (svcs : List (String × ProcService)) (n : String) :
    List (String × ProcService) :=
  svcs.map (fun p =>
    if p.1 == n then (p.1, ⟨p.2.pid, p.2.hasProcess, false, p.2.hasHealthClient⟩) else p)

/-- A service table holding one worker whose process has exited
(`poll()` returns an exit code) but whose `pid` field was never
cleared, as happens after a crash. -/
def crashedSvcs : List (String × ProcService) :=
  [("stt", ⟨some 4242, true, false, true⟩)]

/-! ## Voice synthesizer (src/services/tts_service.py) -/

/-- One request chunk of `V.SpeakStream` (proto `LlmChunk` as consumed
in tts_service.py, lines 326-357). -/
structure TtsChunk where
  text : String
  eot : Bool
  dialogId : String
  deriving DecidableEq

/-- A playback event (tts_service.py, `services_pb2.PlaybackEvent`). -/
structure PlaybackEvent where
  eventType : String
  chunkNumber : Nat
  dialogId : String
  deriving DecidableEq

/-- The `self.playback_events` dictionary of `TTSServicer`
(tts_service.py, line 242): per dialog_id, the queued events in FIFO
order. -/
abbrev PEMap : Type := List (String × List PlaybackEvent)

/-- Membership test `dialog_id in self.playback_events`. -/
def peContains (pe : PEMap) (d : String) : Bool :=
  (pe : List (String × List PlaybackEvent)).any (fun p => p.1 == d)

/-- `if dialog_id not in self.playback_events:
self.playback_events[dialog_id] = queue.Queue()`
(tts_service.py, lines 346-347). -/
def peEnsure (pe : PEMap) (d : String) : PEMap :=
  if peContains pe d = true then pe
  else (pe : List (String × List PlaybackEvent)) ++ [(d, [])]

/-- `self.playback_events[dialog_id].put(event)`: append the event to
the queue stored under key `d` (no effect when the key is absent; the
source always ensures the key first). -/
def pePut (pe : PEMap) (d : String) (e : PlaybackEvent) : PEMap :=
  (pe : List (String × List PlaybackEvent)).map
    (fun p => if p.1 == d then (p.1, p.2 ++ [e]) else p)

/-- The queue stored under key `d` (empty when absent). -/
def peGet (pe : PEMap) (d : String) : List PlaybackEvent :=
  match (pe : List (String × List PlaybackEvent)).find? (fun p => p.1 == d) with
  | some p => p.2
  | none => []

/-- Loop state of `TTSServicer.SpeakStream` (tts_service.py, lines
315-357): the events map, the collected `full_text`, the texts
synthesized and enqueued on the audio queue in order, the
`chunk_count`, and every event put during the call in order. -/
structure LoopOut where
  pe : PEMap
  fullText : List String
  synthTexts : List String
  chunkCount : Nat
  emitted : List PlaybackEvent

/-- The `for chunk in request_iterator` loop of `SpeakStream`
(tts_service.py, lines 326-357), with `dialog_id` already bound to the
first chunk's `dialog_id` (lines 327-328; it never changes
afterwards): a chunk with non-empty text is appended to `full_text`,
synthesized and enqueued, counted, and a `chunk_played` event is put
on the (created-on-demand) queue; a chunk with `eot` ends the loop
after its text (if any) has been handled. -/
def speakStreamLoop (d : String) (st : LoopOut) : List TtsChunk → LoopOut
  | [] => st
  | c :: rest =>
    if c.text ≠ "" then
      let n := st.chunkCount + 1
      let ev : PlaybackEvent := ⟨"chunk_played", n, d⟩
      let st' : LoopOut :=
        ⟨pePut (peEnsure st.pe d) d ev, st.fullText ++ [c.text], st.synthTexts ++ [c.text], n,
          st.emitted ++ [ev]⟩
      if c.eot = true then st' else speakStreamLoop d st' rest
    else if c.eot = true then st
    else speakStreamLoop d st rest

/-- Result of a `SpeakStream` call. -/
structure StreamOutcome where
  success : Bool
  chunkCount : Nat
  fullText : List String
  synthTexts : List String
  emitted : List PlaybackEvent
  events : PEMap

/-- `TTSServicer.SpeakStream` (tts_service.py, lines 315-383) on a
request chunk sequence, starting from events map `pe0`: run the loop,
then — only `if dialog_id and dialog_id in self.playback_events`
(line 361) — put a single `finished` event; return a success response
either way. Note that a stream with no non-empty text chunk never
creates the queue, so no `finished` event is put for it, and no branch
of the method ever puts an `error` event. -/
def speakStream (chunks : List TtsChunk) (pe0 : PEMap) : StreamOutcome :=
  match chunks with
  | [] => ⟨true, 0, [], [], [], pe0⟩
  | c0 :: _ =>
    let d := c0.dialogId
    let out := speakStreamLoop d ⟨pe0, [], [], 0, []⟩ chunks
    if d ≠ "" ∧ peContains out.pe d = true then
      let fin : PlaybackEvent := ⟨"finished", out.chunkCount, d⟩
      ⟨true, out.chunkCount, out.fullText, out.synthTexts, out.emitted ++ [fin],
        pePut out.pe d fin⟩
    else ⟨true, out.chunkCount, out.fullText, out.synthTexts, out.emitted, out.pe⟩

/-- A `SpeakStream` call whose request iteration raises after `k`
chunks (tts_service.py, lines 377-383): the `except` branch returns a
failure response; the `finished` put at lines 359-367 is skipped, so
the events emitted are exactly those of the interrupted loop. -/
def speakStreamAborted (chunks : List TtsChunk) (pe0 : PEMap) (k : Nat) : StreamOutcome :=
  match chunks with
  | [] => ⟨false, 0, [], [], [], pe0⟩
  | c0 :: _ =>
    let out := speakStreamLoop c0.dialogId ⟨pe0, [], [], 0, []⟩ (chunks.take k)
    ⟨false, out.chunkCount, out.fullText, out.synthTexts, out.emitted, out.pe⟩

/-- The chunks the `SpeakStream` loop iterates over: everything up to
and including the first `eot` chunk. -/
def upToEot : List TtsChunk → List TtsChunk
  | [] => []
  | c :: rest => if c.eot = true then [c] else c :: upToEot rest

/-- A chunk sequence properly terminated by `eot=true`: non-empty, the
last chunk carries `eot`, and no earlier chunk does. -/
def eotTerminated : List TtsChunk → Bool
  | [] => false
  | [c] => c.eot
  | c :: rest => !c.eot && eotTerminated rest

/-- A terminal playback event (`finished` or `error`). -/
def isTerminal (e : PlaybackEvent) : Bool :=
  e.eventType == "finished" || e.eventType == "error"

/-- `TTSServicer.PlaybackEvents` (tts_service.py, lines 385-420)
restricted to one pass over a queue's contents: yield events in order
and stop right after yielding a `finished` event (line 406-407); on an
empty queue the server loop keeps waiting, so the delivered list is
what has been yielded so far. -/
def deliverEvents : List PlaybackEvent → List PlaybackEvent
  | [] => []
  | e :: rest => if e.eventType == "finished" then [e] else e :: deliverEvents rest

/-- Concatenation of a list of strings (the value of
`''.join`-style accumulation of `full_text`). -/
def strConcat : List String → String
  | [] => ""
  | s :: rest => s ++ strConcat rest

/-- `AudioStreamQueue._audio_callback` (tts_service.py, lines
191-215): fill an output buffer of `frames` samples from the FIFO
queue of audio chunks; a chunk longer than the space left is cut and
its remainder is put back — `self.queue.put(chunk[to_copy:])`
(line 210) appends it at the TAIL of the queue; if the queue drains
first, the remaining samples stay zero (silence). Returns (output
samples, queue after the callback). -/
def fillFrom : List (List Int) → Nat → List Int × List (List Int)
  | q, 0 => ([], q)
  | [], n => (List.replicate n 0, [])
  | c :: rest, n =>
    if c.length ≤ n then
      let r := fillFrom rest (n - c.length)
      (c ++ r.1, r.2)
    else
      (c.take n, rest ++ [c.drop n])

/-- Total number of queued samples. -/
def audioLenSum (q : List (List Int)) : Nat :=
  (q.map List.length).sum

/-- Timed outcome of a unary `TTSServicer.Speak` call
(tts_service.py, lines 247-313). -/
structure SpeakModel where
  success : Bool
  durationMs : ℚ
  responseAtMs : ℚ
  finishedEmitAtMs : ℚ

/-- `TTSServicer.Speak` (tts_service.py, lines 247-313): synthesize
the whole utterance (taking `synthMs` of wall time from `startMs`),
enqueue it, compute `duration_ms = len(audio) / sample_rate * 1000`,
put a `started` event, spawn a background thread that sleeps
`duration_ms` and only then puts the single `finished` event
(lines 290-299), and return a success response immediately — before
that sleep ends. -/
def ttsSpeak (startMs synthMs : ℚ) (audioSamples sampleRate : Nat) : SpeakModel :=
  let durationMs : ℚ := (audioSamples : ℚ) / (sampleRate : ℚ) * 1000
  let responseAt := startMs + synthMs
  ⟨true, durationMs, responseAt, responseAt + durationMs⟩

/-! ## Theorems -/

/-! ### Boot-sequence lemmas -/

theorem pollTicks_exists {h : Nat → Health} :
    ∀ {r k : Nat}, pollTicks h k r = true → ∃ j, j < r ∧ h (k + j) = Health.SERVING := by
  intro r
  induction r with
  | zero => intro k hp; simp [pollTicks] at hp
  | succ n ih =>
    intro k hp
    by_cases hk : h k = Health.SERVING
    · exact ⟨0, Nat.succ_pos n, by simpa using hk⟩
    · simp only [pollTicks, if_neg hk] at hp
      obtain ⟨j, hj, hs⟩ := ih hp
      exact ⟨j + 1, by omega, by rw [show k + (j + 1) = k + 1 + j by omega]; exact hs⟩

theorem startAndWait_serving {env : BootEnv} {n : String} {t : Nat}
    (h : startAndWait env n t = true) :
    ∃ j, j < 2 * t ∧ env.health n j = Health.SERVING := by
  unfold startAndWait at h
  by_cases hs : env.spawnOk n = true
  · rw [if_pos hs] at h
    simpa using pollTicks_exists h
  · rw [if_neg hs] at h
    exact absurd h (by simp)

theorem ls_ollama_false {env : BootEnv} (h1 : env.ollamaOk = false) :
    loaderSetup env = ⟨SystemState.ERROR, [], false⟩ := by
  simp [loaderSetup, h1]

theorem ls_preload_false {env : BootEnv} (h1 : env.ollamaOk = true)
    (h2 : env.preloadOk = false) :
    loaderSetup env = ⟨SystemState.ERROR, [], false⟩ := by
  simp [loaderSetup, h1, h2]

theorem ls_logger_false {env : BootEnv} (h1 : env.ollamaOk = true) (h2 : env.preloadOk = true)
    (h3 : startAndWait env "logger" defaultTimeoutSeconds = false) :
    loaderSetup env = ⟨SystemState.ERROR, fullStartOrder.take 1, false⟩ := by
  simp [loaderSetup, h1, h2, h3]

theorem ls_kwd_false {env : BootEnv} (h1 : env.ollamaOk = true) (h2 : env.preloadOk = true)
    (h3 : startAndWait env "logger" defaultTimeoutSeconds = true)
    (h4 : startAndWait env "kwd" defaultTimeoutSeconds = false) :
    loaderSetup env = ⟨SystemState.ERROR, fullStartOrder.take 2, false⟩ := by
  simp [loaderSetup, h1, h2, h3, h4]

theorem ls_stt_false {env : BootEnv} (h1 : env.ollamaOk = true) (h2 : env.preloadOk = true)
    (h3 : startAndWait env "logger" defaultTimeoutSeconds = true)
    (h4 : startAndWait env "kwd" defaultTimeoutSeconds = true)
    (h5 : startAndWait env "stt" 30 = false) :
    loaderSetup env = ⟨SystemState.ERROR, fullStartOrder.take 3, false⟩ := by
  simp [loaderSetup, h1, h2, h3, h4, h5]

theorem ls_llm_false {env : BootEnv} (h1 : env.ollamaOk = true) (h2 : env.preloadOk = true)
    (h3 : startAndWait env "logger" defaultTimeoutSeconds = true)
    (h4 : startAndWait env "kwd" defaultTimeoutSeconds = true)
    (h5 : startAndWait env "stt" 30 = true)
    (h6 : startAndWait env "llm" defaultTimeoutSeconds = false) :
    loaderSetup env = ⟨SystemState.ERROR, fullStartOrder.take 4, false⟩ := by
  simp [loaderSetup, h1, h2, h3, h4, h5, h6]

theorem ls_tts_false {env : BootEnv} (h1 : env.ollamaOk = true) (h2 : env.preloadOk = true)
    (h3 : startAndWait env "logger" defaultTimeoutSeconds = true)
    (h4 : startAndWait env "kwd" defaultTimeoutSeconds = true)
    (h5 : startAndWait env "stt" 30 = true)
    (h6 : startAndWait env "llm" defaultTimeoutSeconds = true)
    (h7 : startAndWait env "tts" 30 = false) :
    loaderSetup env = ⟨SystemState.ERROR, fullStartOrder, false⟩ := by
  simp [loaderSetup, h1, h2, h3, h4, h5, h6, h7]

theorem ls_all_true {env : BootEnv} (h1 : env.ollamaOk = true) (h2 : env.preloadOk = true)
    (h3 : startAndWait env "logger" defaultTimeoutSeconds = true)
    (h4 : startAndWait env "kwd" defaultTimeoutSeconds = true)
    (h5 : startAndWait env "stt" 30 = true)
    (h6 : startAndWait env "llm" defaultTimeoutSeconds = true)
    (h7 : startAndWait env "tts" 30 = true) :
    loaderSetup env = ⟨SystemState.IDLE, fullStartOrder, false⟩ := by
  simp [loaderSetup, h1, h2, h3, h4, h5, h6, h7]

/-- Case analysis on the outcome of `loaderSetup`. -/
theorem loaderSetup_rec (env : BootEnv) {motive : SetupResult → Prop}
    (c1 : env.ollamaOk = false → motive ⟨SystemState.ERROR, [], false⟩)
    (c2 : env.ollamaOk = true → env.preloadOk = false →
      motive ⟨SystemState.ERROR, [], false⟩)
    (c3 : env.ollamaOk = true → env.preloadOk = true →
      startAndWait env "logger" defaultTimeoutSeconds = false →
      motive ⟨SystemState.ERROR, fullStartOrder.take 1, false⟩)
    (c4 : env.ollamaOk = true → env.preloadOk = true →
      startAndWait env "logger" defaultTimeoutSeconds = true →
      startAndWait env "kwd" defaultTimeoutSeconds = false →
      motive ⟨SystemState.ERROR, fullStartOrder.take 2, false⟩)
    (c5 : env.ollamaOk = true → env.preloadOk = true →
      startAndWait env "logger" defaultTimeoutSeconds = true →
      startAndWait env "kwd" defaultTimeoutSeconds = true →
      startAndWait env "stt" 30 = false →
      motive ⟨SystemState.ERROR, fullStartOrder.take 3, false⟩)
    (c6 : env.ollamaOk = true → env.preloadOk = true →
      startAndWait env "logger" defaultTimeoutSeconds = true →
      startAndWait env "kwd" defaultTimeoutSeconds = true →
      startAndWait env "stt" 30 = true →
      startAndWait env "llm" defaultTimeoutSeconds = false →
      motive ⟨SystemState.ERROR, fullStartOrder.take 4, false⟩)
    (c7 : env.ollamaOk = true → env.preloadOk = true →
      startAndWait env "logger" defaultTimeoutSeconds = true →
      startAndWait env "kwd" defaultTimeoutSeconds = true →
      startAndWait env "stt" 30 = true →
      startAndWait env "llm" defaultTimeoutSeconds = true →
      startAndWait env "tts" 30 = false →
      motive ⟨SystemState.ERROR, fullStartOrder, false⟩)
    (c8 : env.ollamaOk = true → env.preloadOk = true →
      startAndWait env "logger" defaultTimeoutSeconds = true →
      startAndWait env "kwd" defaultTimeoutSeconds = true →
      startAndWait env "stt" 30 = true →
      startAndWait env "llm" defaultTimeoutSeconds = true →
      startAndWait env "tts" 30 = true →
      motive ⟨SystemState.IDLE, fullStartOrder, false⟩) :
    motive (loaderSetup env) := by
  rcases Or.symm (Bool.eq_false_or_eq_true env.ollamaOk) with h1 | h1
  · rw [ls_ollama_false h1]; exact c1 h1
  rcases Or.symm (Bool.eq_false_or_eq_true env.preloadOk) with h2 | h2
  · rw [ls_preload_false h1 h2]; exact c2 h1 h2
  rcases Or.symm (Bool.eq_false_or_eq_true (startAndWait env "logger" defaultTimeoutSeconds)) with h3 | h3
  · rw [ls_logger_false h1 h2 h3]; exact c3 h1 h2 h3
  rcases Or.symm (Bool.eq_false_or_eq_true (startAndWait env "kwd" defaultTimeoutSeconds)) with h4 | h4
  · rw [ls_kwd_false h1 h2 h3 h4]; exact c4 h1 h2 h3 h4
  rcases Or.symm (Bool.eq_false_or_eq_true (startAndWait env "stt" 30)) with h5 | h5
  · rw [ls_stt_false h1 h2 h3 h4 h5]; exact c5 h1 h2 h3 h4 h5
  rcases Or.symm (Bool.eq_false_or_eq_true (startAndWait env "llm" defaultTimeoutSeconds)) with h6 | h6
  · rw [ls_llm_false h1 h2 h3 h4 h5 h6]; exact c6 h1 h2 h3 h4 h5 h6
  rcases Or.symm (Bool.eq_false_or_eq_true (startAndWait env "tts" 30)) with h7 | h7
  · rw [ls_tts_false h1 h2 h3 h4 h5 h6 h7]; exact c7 h1 h2 h3 h4 h5 h6 h7
  rw [ls_all_true h1 h2 h3 h4 h5 h6 h7]; exact c8 h1 h2 h3 h4 h5 h6 h7

/-! ### Claim C1 — GPU-memory guardrail before IDLE -/

/-- Claim C1 counterexample: in a boot run whose measured free GPU
memory (292 MiB) is below the configured floor (8000 MiB), the
orchestrator still reaches `IDLE` and never emits a `vram_guardrail`
record — the claim that such a run never enters IDLE is false. The
check exists (`checkVram` would reject 292 MiB) but the startup path
never calls it. -/
theorem C1_counterexample :
    (loaderSetup belowFloorEnv).state = SystemState.IDLE ∧
    belowFloorEnv.freeVramMb < belowFloorEnv.minVramMb ∧
    (loaderSetup belowFloorEnv).vramGuardrailLogged = false ∧
    checkVram (some ⟨belowFloorEnv.freeVramMb, 0⟩) belowFloorEnv.minVramMb = false := by
  refine ⟨by decide, by decide, by decide, by decide⟩

/-- Claim C1 (amended): `LoaderService.setup` never queries accelerator
memory before entering `IDLE` — the `check_vram` call is commented out —
so (i) the boot outcome is independent of the measured free memory and
of the configured floor, (ii) no `vram_guardrail` record is ever
emitted during startup, and (iii) the system enters `IDLE` exactly when
Ollama starts, the model preloads, and all five workers report
`SERVING` within their timeouts, regardless of free GPU memory. -/
theorem C1_amended (env : BootEnv) (f m : Nat) :
    loaderSetup ⟨env.ollamaOk, env.preloadOk, env.spawnOk, env.health, f, m⟩ =
      loaderSetup env ∧
    (loaderSetup env).vramGuardrailLogged = false ∧
    ((loaderSetup env).state = SystemState.IDLE ↔
      env.ollamaOk = true ∧ env.preloadOk = true ∧
      startAndWait env "logger" defaultTimeoutSeconds = true ∧
      startAndWait env "kwd" defaultTimeoutSeconds = true ∧
      startAndWait env "stt" 30 = true ∧
      startAndWait env "llm" defaultTimeoutSeconds = true ∧
      startAndWait env "tts" 30 = true) := by
  refine ⟨rfl, ?_, ?_⟩
  · exact loaderSetup_rec env (motive := fun r => r.vramGuardrailLogged = false)
      (fun _ => rfl) (fun _ _ => rfl) (fun _ _ _ => rfl)
      (fun _ _ _ _ => rfl) (fun _ _ _ _ _ => rfl) (fun _ _ _ _ _ _ => rfl)
      (fun _ _ _ _ _ _ _ => rfl) (fun _ _ _ _ _ _ _ => rfl)
  · exact loaderSetup_rec env
      (motive := fun r => r.state = SystemState.IDLE ↔
        env.ollamaOk = true ∧ env.preloadOk = true ∧
        startAndWait env "logger" defaultTimeoutSeconds = true ∧
        startAndWait env "kwd" defaultTimeoutSeconds = true ∧
        startAndWait env "stt" 30 = true ∧
        startAndWait env "llm" defaultTimeoutSeconds = true ∧
        startAndWait env "tts" 30 = true)
      (fun h1 => by simp [h1])
      (fun h1 h2 => by simp [h1, h2])
      (fun h1 h2 h3 => by simp [h1, h2, h3])
      (fun h1 h2 h3 h4 => by simp [h1, h2, h3, h4])
      (fun h1 h2 h3 h4 h5 => by simp [h1, h2, h3, h4, h5])
      (fun h1 h2 h3 h4 h5 h6 => by simp [h1, h2, h3, h4, h5, h6])
      (fun h1 h2 h3 h4 h5 h6 h7 => by simp [h1, h2, h3, h4, h5, h6, h7])
      (fun h1 h2 h3 h4 h5 h6 h7 => by simp [h1, h2, h3, h4, h5, h6, h7])

/-- Claim C1 witness: the amended claim instantiated on a concrete
healthy environment. -/
theorem C1_witness :
    loaderSetup ⟨allServingEnv.ollamaOk, allServingEnv.preloadOk, allServingEnv.spawnOk,
        allServingEnv.health, 123, 456⟩ = loaderSetup allServingEnv ∧
    (loaderSetup allServingEnv).vramGuardrailLogged = false ∧
    ((loaderSetup allServingEnv).state = SystemState.IDLE ↔
      allServingEnv.ollamaOk = true ∧ allServingEnv.preloadOk = true ∧
      startAndWait allServingEnv "logger" defaultTimeoutSeconds = true ∧
      startAndWait allServingEnv "kwd" defaultTimeoutSeconds = true ∧
      startAndWait allServingEnv "stt" 30 = true ∧
      startAndWait allServingEnv "llm" defaultTimeoutSeconds = true ∧
      startAndWait allServingEnv "tts" 30 = true) :=
  C1_amended allServingEnv 123 456

/-! ### Claim C2 — sequential start order, poll period, timeouts -/

/-- Claim C2 counterexample: in a fully healthy boot the attempted
(worker, timeout-seconds) sequence is logger 10, kwd 10, stt 30,
llm 10, tts 30 — the kwd and llm workers use the 10 s default of
`start_and_wait_for_service`, not the 20 s the claim states. -/
theorem C2_counterexample :
    (loaderSetup allServingEnv).attempts =
      [("logger", 10), ("kwd", 10), ("stt", 30), ("llm", 10), ("tts", 30)] ∧
    ("kwd", 20) ∉ (loaderSetup allServingEnv).attempts ∧
    ("llm", 20) ∉ (loaderSetup allServingEnv).attempts := by
  refine ⟨by decide, by decide, by decide⟩

/-- Claim C2 (amended): on boot the workers are attempted strictly
sequentially in the order logger, kwd, stt, llm, tts (the attempt list
is always a prefix of that order); each wait polls the readiness probe
once per 500 ms tick, so a worker is only attempted after the previous
worker reported `SERVING` at some poll tick within the previous
worker's budget; the per-worker timeouts are logger 10 s, kwd 10 s,
stt 30 s, llm 10 s, tts 30 s; and reaching `IDLE` requires the full
sequence with tts `SERVING` within its 60 ticks. -/
theorem C2_amended (env : BootEnv) :
    (∃ k, (loaderSetup env).attempts = fullStartOrder.take k) ∧
    (("kwd", defaultTimeoutSeconds) ∈ (loaderSetup env).attempts →
      ∃ j, j < 20 ∧ env.health "logger" j = Health.SERVING) ∧
    (("stt", 30) ∈ (loaderSetup env).attempts →
      ∃ j, j < 20 ∧ env.health "kwd" j = Health.SERVING) ∧
    (("llm", defaultTimeoutSeconds) ∈ (loaderSetup env).attempts →
      ∃ j, j < 60 ∧ env.health "stt" j = Health.SERVING) ∧
    (("tts", 30) ∈ (loaderSetup env).attempts →
      ∃ j, j < 20 ∧ env.health "llm" j = Health.SERVING) ∧
    ((loaderSetup env).state = SystemState.IDLE →
      (loaderSetup env).attempts = fullStartOrder ∧
      ∃ j, j < 60 ∧ env.health "tts" j = Health.SERVING) := by
  refine loaderSetup_rec env
    (motive := fun r =>
      (∃ k, r.attempts = fullStartOrder.take k) ∧
      (("kwd", defaultTimeoutSeconds) ∈ r.attempts →
        ∃ j, j < 20 ∧ env.health "logger" j = Health.SERVING) ∧
      (("stt", 30) ∈ r.attempts →
        ∃ j, j < 20 ∧ env.health "kwd" j = Health.SERVING) ∧
      (("llm", defaultTimeoutSeconds) ∈ r.attempts →
        ∃ j, j < 60 ∧ env.health "stt" j = Health.SERVING) ∧
      (("tts", 30) ∈ r.attempts →
        ∃ j, j < 20 ∧ env.health "llm" j = Health.SERVING) ∧
      (r.state = SystemState.IDLE →
        r.attempts = fullStartOrder ∧
        ∃ j, j < 60 ∧ env.health "tts" j = Health.SERVING)) ?_ ?_ ?_ ?_ ?_ ?_ ?_ ?_
  · intro _
    exact ⟨⟨0, rfl⟩, fun h => absurd h (by decide), fun h => absurd h (by decide),
      fun h => absurd h (by decide), fun h => absurd h (by decide),
      fun h => absurd h (by decide)⟩
  · intro _ _
    exact ⟨⟨0, rfl⟩, fun h => absurd h (by decide), fun h => absurd h (by decide),
      fun h => absurd h (by decide), fun h => absurd h (by decide),
      fun h => absurd h (by decide)⟩
  · intro _ _ _
    exact ⟨⟨1, rfl⟩, fun h => absurd h (by decide), fun h => absurd h (by decide),
      fun h => absurd h (by decide), fun h => absurd h (by decide),
      fun h => absurd h (by decide)⟩
  · intro _ _ h3 _
    exact ⟨⟨2, rfl⟩, fun _ => startAndWait_serving h3, fun h => absurd h (by decide),
      fun h => absurd h (by decide), fun h => absurd h (by decide),
      fun h => absurd h (by decide)⟩
  · intro _ _ h3 h4 _
    exact ⟨⟨3, rfl⟩, fun _ => startAndWait_serving h3, fun _ => startAndWait_serving h4,
      fun h => absurd h (by decide), fun h => absurd h (by decide),
      fun h => absurd h (by decide)⟩
  · intro _ _ h3 h4 h5 _
    exact ⟨⟨4, rfl⟩, fun _ => startAndWait_serving h3, fun _ => startAndWait_serving h4,
      fun _ => startAndWait_serving h5, fun h => absurd h (by decide),
      fun h => absurd h (by decide)⟩
  · intro _ _ h3 h4 h5 h6 _
    exact ⟨⟨5, rfl⟩, fun _ => startAndWait_serving h3, fun _ => startAndWait_serving h4,
      fun _ => startAndWait_serving h5, fun _ => startAndWait_serving h6,
      fun h => absurd h (by decide)⟩
  · intro _ _ h3 h4 h5 h6 h7
    exact ⟨⟨5, rfl⟩, fun _ => startAndWait_serving h3, fun _ => startAndWait_serving h4,
      fun _ => startAndWait_serving h5, fun _ => startAndWait_serving h6,
      fun _ => ⟨rfl, startAndWait_serving h7⟩⟩

/-- Claim C2 witness: the amended claim instantiated on a concrete
healthy environment, with the membership hypotheses discharged. -/
theorem C2_witness :
    (("tts", 30) ∈ (loaderSetup allServingEnv).attempts) ∧
    (∃ j, j < 20 ∧ allServingEnv.health "llm" j = Health.SERVING) :=
  ⟨by decide, (C2_amended allServingEnv).2.2.2.2.1 (by decide)⟩

/-! ### Claim C4 — empty final transcript -/

/-- Claim C4: whenever the final transcript of a turn is empty or
whitespace-only, `process_user_input` stops S, cancels any pending
timer, plays the fixed `stt_error` apology through a `V.Speak` call,
re-arms the follow-up timer, and never opens `M.Complete` for that
turn (regardless of the LLM/TTS behaviour parameters). -/
theorem C4_empty_transcript (env : TurnEnv) (dialogId userText : String)
    (hempty : pyStrip userText = "") (hspeak : env.speakRaises = false) :
    processUserInput env dialogId userText =
      [DAction.sttStopCall dialogId, DAction.cancelTimer,
        DAction.ttsSpeakCall "Sorry, I didn\x27t catch that.", DAction.startFollowUpTimer] ∧
    ∀ t, DAction.llmCompleteCall t ∉ processUserInput env dialogId userText := by
  have hcond : userText = "" ∨ pyStrip userText = "" := Or.inr hempty
  constructor
  · simp [processUserInput, if_pos hcond, playErrorPrompt, hspeak, errorPromptFor]
  · intro t
    simp [processUserInput, if_pos hcond, playErrorPrompt, hspeak, errorPromptFor]

/-- Claim C4 witness: a whitespace-only final transcript on a concrete
turn environment. -/
theorem C4_witness :
    pyStrip "  " = "" ∧
    (processUserInput ⟨false, [("hello", true)], true, false⟩ "d1" "  " =
      [DAction.sttStopCall "d1", DAction.cancelTimer,
        DAction.ttsSpeakCall "Sorry, I didn\x27t catch that.", DAction.startFollowUpTimer] ∧
      ∀ t, DAction.llmCompleteCall t ∉
        processUserInput ⟨false, [("hello", true)], true, false⟩ "d1" "  ") :=
  ⟨by decide, C4_empty_transcript ⟨false, [("hello", true)], true, false⟩ "d1" "  "
    (by decide) rfl⟩

/-! ### Claim C5 — confidence threshold and dialog creation -/

/-- Claim C5 counterexample: the wake detector itself creates a dialog
(via `L.NewDialog` inside `_handle_wake_detection`, kwd_service.py,
lines 316-323) on every above-threshold detection, with no reference
to the orchestrator's state. In the boot scenario the loader is still
`INITIALIZING` — not `IDLE` — while the already-enabled detector
processes a 0.9-scoring chunk and creates a dialog, so a Dialog comes
into existence without any wake event accepted while the system is
IDLE. -/
theorem C5_counterexample :
    startupWakeScenario = (SystemState.INITIALIZING, 1) ∧
    SystemState.INITIALIZING ≠ SystemState.IDLE := by
  have hth : ((6 : ℚ) / 10) ≤ (9 : ℚ) / 10 := by norm_num
  have hcd : ¬((5000 : ℕ) - 0 < 1000) := by omega
  refine ⟨?_, by decide⟩
  simp [startupWakeScenario, runKwdLoop, kwdProcessChunk, hth, hcd]

/-- Claim C5 (amended): every wake event emitted by the detector loop
has confidence at least the configured threshold — sub-threshold
scores are never emitted — and the orchestrator's
`handle_wake_event` creates its dialog only while the system is IDLE;
however, every emitted event also records that the detector itself
already invoked `L.NewDialog` during `_handle_wake_detection`,
regardless of the orchestrator state, so dialogs are not created only
from events accepted while IDLE. -/
theorem C5_amended :
    (∀ (threshold : ℚ) (cooldownMs : Nat) (st : KwdState) (trace : List (Nat × ℚ))
      (e : WakeEmission), e ∈ (runKwdLoop threshold cooldownMs st trace).2 →
        threshold ≤ e.confidence ∧ e.dialogCreated = true) ∧
    (∀ s : SystemState, (handleWakeEvent s).2 = true ↔ s = SystemState.IDLE) := by
  constructor
  · intro threshold cooldownMs st trace
    induction trace generalizing st with
    | nil => intro e he; simp [runKwdLoop] at he
    | cons p rest ih =>
      intro e he
      obtain ⟨t, s⟩ := p
      simp only [runKwdLoop, List.mem_append] at he
      rcases he with he | he
      · unfold kwdProcessChunk at he
        by_cases h1 : st.enabled = false
        · rw [if_pos h1] at he; simp at he
        · rw [if_neg h1] at he
          by_cases h2 : t - st.lastDetectionMs < cooldownMs
          · rw [if_pos h2] at he; simp at he
          · rw [if_neg h2] at he
            by_cases h3 : threshold ≤ s
            · rw [if_pos h3] at he
              simp only [Option.toList_some, List.mem_singleton] at he
              subst he
              exact ⟨h3, rfl⟩
            · rw [if_neg h3] at he; simp at he
      · exact ih _ e he
  · intro s
    constructor
    · intro h
      by_cases hs : s = SystemState.IDLE
      · exact hs
      · simp [handleWakeEvent, hs] at h
    · intro h
      simp [handleWakeEvent, h]

/-- Claim C5 witness: the amended claim instantiated on the concrete
boot-time detection. -/
theorem C5_witness :
    ((⟨(9 : ℚ) / 10, 5000, true⟩ : WakeEmission) ∈
      (runKwdLoop ((6 : ℚ) / 10) 1000 ⟨true, false, 0⟩ [(5000, (9 : ℚ) / 10)]).2) ∧
    ((6 : ℚ) / 10 ≤ (9 : ℚ) / 10 ∧ true = true) := by
  have hth : ((6 : ℚ) / 10) ≤ (9 : ℚ) / 10 := by norm_num
  have hcd : ¬((5000 : ℕ) - 0 < 1000) := by omega
  have hmem : (⟨(9 : ℚ) / 10, 5000, true⟩ : WakeEmission) ∈
      (runKwdLoop ((6 : ℚ) / 10) 1000 ⟨true, false, 0⟩ [(5000, (9 : ℚ) / 10)]).2 := by
    simp [runKwdLoop, kwdProcessChunk, hth, hcd]
  exact ⟨hmem,
    C5_amended.1 ((6 : ℚ) / 10) 1000 ⟨true, false, 0⟩ [(5000, (9 : ℚ) / 10)]
      ⟨(9 : ℚ) / 10, 5000, true⟩ hmem⟩

/-! ### Claim C7 — idempotence of Stop and shutdown -/

/-- Claim C7: stopping is idempotent across all three surfaces. For
every detector state, a second `W.Stop` leaves the state unchanged and
returns the same True; for every recognizer state and dialog, a second
`S.Stop(dialog)` leaves the same state, emits no further result, and
returns the same True; for every loader state, a second `cleanup` or a
second termination signal while already stopping is a no-op. -/
theorem C7_idempotent_stops :
    (∀ st : KwdState, wakeStop (wakeStop st).1 = wakeStop st) ∧
    (∀ (transcribe : List Int → String) (st : SttState) (d : String),
      sttStopRecognition transcribe (sttStopRecognition transcribe st d).1 d =
        ((sttStopRecognition transcribe st d).1, [], true)) ∧
    (∀ st : ShutdownState, loaderCleanup (loaderCleanup st) = loaderCleanup st) ∧
    (∀ st : ShutdownState, loaderSignalHandler (loaderSignalHandler st) =
      loaderSignalHandler st) := by
  refine ⟨fun st => rfl, ?_, ?_, ?_⟩
  · intro transcribe st d
    have hstate : ∀ (st1 : SttState), st1.activeSessions d = none →
        sttStopRecognition transcribe st1 d =
          (⟨eraseKey st1.activeSessions d, eraseKey st1.audioBuffers d,
            eraseKey st1.resultQueues d⟩, [], true) := by
      intro st1 h1
      simp [sttStopRecognition, h1]
    have h1 : (sttStopRecognition transcribe st d).1.activeSessions d = none := by
      unfold sttStopRecognition
      rcases h : st.activeSessions d with _ | session
      · simp [eraseKey]
      · by_cases hf : session.finalized = true
        · simp [hf, eraseKey]
        · simp [hf, eraseKey]
    rw [hstate _ h1]
    have herase : ∀ {α : Type} (m : String → Option α),
        eraseKey (eraseKey m d) d = eraseKey m d := by
      intro α m
      funext k
      by_cases hk : k = d
      · simp [eraseKey, hk]
      · simp [eraseKey, hk]
    have hcomp : (sttStopRecognition transcribe st d).1 =
        ⟨eraseKey st.activeSessions d, eraseKey st.audioBuffers d,
          eraseKey st.resultQueues d⟩ := by
      unfold sttStopRecognition
      rcases h : st.activeSessions d with _ | session
      · rfl
      · by_cases hf : session.finalized = true
        · simp [hf]
        · simp [hf]
    rw [hcomp]
    simp [herase]
  · intro st
    by_cases h : st.stopping = true
    · simp [loaderCleanup, h]
    · simp [loaderCleanup, h]
  · intro st
    by_cases h : st.stopping = true
    · simp [loaderSignalHandler, h]
    · simp [loaderSignalHandler, h]

/-- Claim C7 witness: the idempotence properties instantiated on
concrete states. -/
theorem C7_witness :
    wakeStop (wakeStop ⟨true, false, 42⟩).1 = wakeStop ⟨true, false, 42⟩ ∧
    loaderCleanup (loaderCleanup ⟨false, true, fun _ => true, true⟩) =
      loaderCleanup ⟨false, true, fun _ => true, true⟩ :=
  ⟨C7_idempotent_stops.1 ⟨true, false, 42⟩,
    C7_idempotent_stops.2.2.1 ⟨false, true, fun _ => true, true⟩⟩

/-! ### Claim C6 — dialog identifier format and uniqueness -/

theorem digitChar_injOn : ∀ a < 10, ∀ b < 10, Nat.digitChar a = Nat.digitChar b → a = b := by
  decide

theorem string_append_left_cancel {s a b : String} (h : s ++ a = s ++ b) : a = b := by
  apply String.ext
  have hd := congrArg String.data h
  rw [String.data_append, String.data_append] at hd
  exact List.append_cancel_left hd

theorem zfill3_inj {a b : Nat} (ha : a < 1000) (hb : b < 1000) (h : zfill3 a = zfill3 b) :
    a = b := by
  unfold zfill3 at h
  have hd := congrArg String.data h
  simp only [String.data] at hd
  have h0 : Nat.digitChar (a / 100 % 10) = Nat.digitChar (b / 100 % 10) := by
    simpa using congrArg (fun l => l.getD 0 ' ') hd
  have h1 : Nat.digitChar (a / 10 % 10) = Nat.digitChar (b / 10 % 10) := by
    simpa using congrArg (fun l => l.getD 1 ' ') hd
  have h2 : Nat.digitChar (a % 10) = Nat.digitChar (b % 10) := by
    simpa using congrArg (fun l => l.getD 2 ' ') hd
  have e0 := digitChar_injOn _ (Nat.mod_lt _ (by omega)) _ (Nat.mod_lt _ (by omega)) h0
  have e1 := digitChar_injOn _ (Nat.mod_lt _ (by omega)) _ (Nat.mod_lt _ (by omega)) h1
  have e2 := digitChar_injOn _ (Nat.mod_lt _ (by omega)) _ (Nat.mod_lt _ (by omega)) h2
  omega

/-- Claim C6 counterexample: `new_dialog` derives the identifier purely
from `timestamp_ms` with no per-process uniquifier, so two successive
`NewDialog` calls in one log-sink process carrying the same
`timestamp_ms` return the SAME identifier — the uniqueness part of the
claim is false. (Timezone offset 0; the identifiers are equal for any
fixed offset.) -/
theorem C6_counterexample :
    (newDialogCall "dialog_" 0 ⟨[]⟩ 1700000000123).1.1 = "20231114_221320_123" ∧
    (newDialogCall "dialog_" 0 (newDialogCall "dialog_" 0 ⟨[]⟩ 1700000000123).2
        1700000000123).1.1 = "20231114_221320_123" := by
  refine ⟨by decide, by decide⟩

/-- Claim C6 (amended): identifiers have the claimed
`YYYYMMDD_HHMMSS_mmm` shape derived from the request timestamp
(witnessed on the epoch), and they are distinct for requests in the
same civil second with distinct millisecond parts; but the identifier
is a pure function of `timestamp_ms` — the log sink keeps no
uniquifier — so calls with equal `timestamp_ms` within one process
lifetime yield equal, not distinct, identifiers. -/
theorem C6_amended (tz t u : Nat) (hsec : t / 1000 = u / 1000)
    (hms : t % 1000 ≠ u % 1000) :
    newDialogId tz t ≠ newDialogId tz u ∧
    (∀ st : LMState, (newDialogCall "dialog_" tz st t).1.1 = newDialogId tz t) ∧
    newDialogId 0 0 = "19700101_000000_000" := by
  refine ⟨?_, fun st => rfl, by decide⟩
  intro h
  unfold newDialogId at h
  rw [hsec] at h
  have hz := string_append_left_cancel h
  exact hms (zfill3_inj (Nat.mod_lt _ (by omega)) (Nat.mod_lt _ (by omega)) hz)

/-- Claim C6 witness: the amended claim instantiated on two concrete
timestamps within the same second. -/
theorem C6_witness :
    (1700000000123 / 1000 = 1700000000124 / 1000 ∧ 1700000000123 % 1000 ≠ 1700000000124 % 1000) ∧
    (newDialogId 0 1700000000123 ≠ newDialogId 0 1700000000124 ∧
      (∀ st : LMState, (newDialogCall "dialog_" 0 st 1700000000123).1.1 =
        newDialogId 0 1700000000123) ∧
      newDialogId 0 0 = "19700101_000000_000") :=
  ⟨⟨by decide, by decide⟩, C6_amended 0 1700000000123 1700000000124 (by decide) (by decide)⟩

/-! ### Claim C9 — GetPids and exited workers -/

/-- Claim C9 counterexample: a worker whose process has exited
(`poll()` no longer returns None) but which was never cleaned through
`stop_service` still appears in the `GetPids` response with its stale
pid — the claim that no exited worker appears is false. -/
theorem C9_counterexample :
    getPids crashedSvcs = [("stt", 4242)] ∧
    (∀ p ∈ crashedSvcs, p.2.alive = false) := by
  refine ⟨by decide, by decide⟩

theorem getPids_stop_dead (svcs : List (String × ProcService)) (n : String) :
    (∀ p ∈ svcs, p.1 = n → p.2.alive = false) →
    getPids (svcs.map (fun p => if p.1 == n then (p.1, stopServiceInfo p.2) else p)) =
      getPids svcs := by
  induction svcs with
  | nil => intro _; rfl
  | cons p rest ih =>
    intro hall
    have hrest : ∀ x ∈ rest, x.1 = n → x.2.alive = false :=
      fun x hx => hall x (List.mem_cons_of_mem _ hx)
    have ih' := ih hrest
    by_cases hp : (p.1 == n) = true
    · have hdead : p.2.alive = false := hall p (List.mem_cons_self _ _) (by simpa using hp)
      have hhead : pidEntry (p.1, stopServiceInfo p.2) = pidEntry p := by
        unfold stopServiceInfo
        rw [if_neg (by simp [hdead])]
        rfl
      simp only [List.map_cons, if_pos hp, getPids, List.filterMap_cons, hhead]
      rcases h : pidEntry p with _ | e
      · simpa [h, getPids] using ih'
      · simpa [h, getPids] using ih'
    · simp only [List.map_cons, if_neg hp, getPids, List.filterMap_cons]
      rcases h : pidEntry p with _ | e
      · simpa [h, getPids] using ih'
      · simpa [h, getPids] using ih'

theorem pidEntry_some_fst {p : String × ProcService} {a : String} {q : Nat}
    (h : pidEntry p = some (a, q)) : a = p.1 := by
  unfold pidEntry at h
  rcases hpid : p.2.pid with _ | v
  · rw [hpid] at h
    exact absurd h (by simp)
  · rw [hpid] at h
    by_cases hv : v = 0
    · simp [hv] at h
    · simp [hv] at h
      exact h.1.symm

/-- Claim C9 (amended): `GetPids` reports exactly the workers whose
cached `pid` field is set (and non-zero). A crash (the process exiting
on its own) does not change the response at all; `stop_service` removes
a worker's entry when it finds the process alive and kills it, but a
worker that had already exited keeps its stale entry even across
`stop_service`. -/
theorem C9_amended :
    (∀ (svcs : List (String × ProcService)) (n : String),
      getPids (crashService svcs n) = getPids svcs) ∧
    (∀ (svcs : List (String × ProcService)) (n : String),
      (∀ p ∈ svcs, p.1 = n → p.2.hasProcess = true ∧ p.2.alive = true) →
      ∀ q, (n, q) ∉ getPids (stopService svcs n).1) ∧
    (∀ (svcs : List (String × ProcService)) (n : String),
      (∀ p ∈ svcs, p.1 = n → p.2.alive = false) →
      getPids (stopService svcs n).1 = getPids svcs) := by
  refine ⟨?_, ?_, ?_⟩
  · intro svcs n
    induction svcs with
    | nil => rfl
    | cons p rest ih =>
      by_cases hp : p.1 == n
      · simp only [crashService, List.map_cons, if_pos hp] at *
        simp only [getPids, List.filterMap_cons] at *
        have : pidEntry (p.1, ⟨p.2.pid, p.2.hasProcess, false, p.2.hasHealthClient⟩) =
            pidEntry p := by
          simp [pidEntry]
        rw [this]
        rcases h : pidEntry p with _ | e
        · simpa [h] using ih
        · simpa [h] using ih
      · simp only [crashService, List.map_cons, if_neg hp] at *
        simp only [getPids, List.filterMap_cons] at *
        rcases h : pidEntry p with _ | e
        · simpa [h] using ih
        · simpa [h] using ih
  · intro svcs n hall q hmem
    unfold stopService at hmem
    by_cases hany : svcs.any (fun p => p.1 == n) = true
    · rw [if_pos hany] at hmem
      simp only [getPids, List.mem_filterMap, List.mem_map] at hmem
      obtain ⟨p', ⟨p, hp, hpe⟩, hentry⟩ := hmem
      by_cases hpn : p.1 == n
      · rw [if_pos hpn] at hpe
        have halive := hall p hp (by simpa using hpn)
        subst hpe
        rw [show stopServiceInfo p.2 = ⟨none, false, false, false⟩ from
          if_pos ⟨halive.1, halive.2⟩] at hentry
        simp [pidEntry] at hentry
      · rw [if_neg hpn] at hpe
        subst hpe
        exact hpn (by simpa using (pidEntry_some_fst hentry).symm)
    · rw [if_neg hany] at hmem
      have : svcs.any (fun p => p.1 == n) = true := by
        simp only [getPids, List.mem_filterMap] at hmem
        obtain ⟨p, hp, hentry⟩ := hmem
        have hpn : p.1 = n := (pidEntry_some_fst hentry).symm
        exact List.any_eq_true.mpr ⟨p, hp, by simpa using hpn⟩
      exact hany this
  · intro svcs n hall
    unfold stopService
    by_cases hany : svcs.any (fun p => p.1 == n) = true
    · rw [if_pos hany]
      exact getPids_stop_dead svcs n hall
    · rw [if_neg hany]

/-- Claim C9 witness: the amended claim instantiated on a concrete
service table: the crashed worker keeps its entry, and stopping a live
worker removes its entry. -/
theorem C9_witness :
    getPids (crashService [("stt", ⟨some 7, true, true, true⟩)] "stt") =
      getPids [("stt", ⟨some 7, true, true, true⟩)] ∧
    ("stt", 7) ∉ getPids (stopService [("stt", ⟨some 7, true, true, true⟩)] "stt").1 :=
  ⟨C9_amended.1 [("stt", ⟨some 7, true, true, true⟩)] "stt",
    C9_amended.2.1 [("stt", ⟨some 7, true, true, true⟩)] "stt"
      (by decide) 7⟩

/-! ### Claim C10 — Speak returns before playback finishes -/

/-- Claim C10: a successful `V.Speak` call returns its success response
with the `duration_ms = len(audio) / sample_rate * 1000` estimate as
soon as synthesis and enqueueing are done, while the single `finished`
event is put by a background thread only after a further sleep of
`duration_ms`; for any non-empty audio the response therefore strictly
precedes the `finished` emission, so a successful return never implies
playback has completed. -/
theorem C10_speak_returns_early (startMs synthMs : ℚ) (audioSamples sampleRate : Nat)
    (hs : 0 < audioSamples) (hr : 0 < sampleRate) :
    (ttsSpeak startMs synthMs audioSamples sampleRate).success = true ∧
    (ttsSpeak startMs synthMs audioSamples sampleRate).durationMs =
      (audioSamples : ℚ) / (sampleRate : ℚ) * 1000 ∧
    (ttsSpeak startMs synthMs audioSamples sampleRate).responseAtMs <
      (ttsSpeak startMs synthMs audioSamples sampleRate).finishedEmitAtMs := by
  refine ⟨rfl, rfl, ?_⟩
  have hpos : (0 : ℚ) < (audioSamples : ℚ) / (sampleRate : ℚ) * 1000 := by
    have ha : (0 : ℚ) < (audioSamples : ℚ) := by exact_mod_cast hs
    have hb : (0 : ℚ) < (sampleRate : ℚ) := by exact_mod_cast hr
    positivity
  simpa [ttsSpeak] using lt_add_of_pos_right (startMs + synthMs) hpos

/-- Claim C10 witness: the claim instantiated on a one-second utterance
at 24 kHz. -/
theorem C10_witness :
    0 < 24000 ∧
    ((ttsSpeak 0 500 24000 24000).success = true ∧
      (ttsSpeak 0 500 24000 24000).durationMs = (24000 : ℚ) / (24000 : ℚ) * 1000 ∧
      (ttsSpeak 0 500 24000 24000).responseAtMs < (ttsSpeak 0 500 24000 24000).finishedEmitAtMs) :=
  ⟨by decide, C10_speak_returns_early 0 500 24000 24000 (by decide) (by decide)⟩

/-! ### Playback-events map lemmas -/

theorem peContains_ensure_self (pe : PEMap) (d : String) :
    peContains (peEnsure pe d) d = true := by
  unfold peEnsure
  by_cases h : peContains pe d = true
  · rw [if_pos h]; exact h
  · rw [if_neg h]
    unfold peContains
    simp [List.any_append]

theorem peContains_ensure_mono {pe : PEMap} {d' : String} (d : String)
    (h : peContains pe d' = true) : peContains (peEnsure pe d) d' = true := by
  unfold peEnsure
  by_cases hc : peContains pe d = true
  · rw [if_pos hc]; exact h
  · rw [if_neg hc]
    unfold peContains at *
    simp [List.any_append, h]

theorem peContains_put (pe : PEMap) (d : String) (e : PlaybackEvent) (d' : String) :
    peContains (pePut pe d e) d' = peContains pe d' := by
  induction pe with
  | nil => rfl
  | cons p rest ih =>
    unfold pePut peContains at *
    by_cases hp : (p.1 == d) = true
    · simp only [List.map_cons, if_pos hp, List.any_cons]
      rw [ih]
    · simp only [List.map_cons, if_neg hp, List.any_cons]
      rw [ih]

theorem peGet_ensure (pe : PEMap) (d d' : String) :
    peGet (peEnsure pe d) d' = peGet pe d' := by
  unfold peEnsure
  by_cases h : peContains pe d = true
  · rw [if_pos h]
  · rw [if_neg h]
    unfold peGet
    rw [List.find?_append]
    rcases hf : pe.find? (fun p => p.1 == d') with _ | p
    · rcases hdd : (d == d') with _ | _ <;> simp [List.find?, hf, hdd]
    · simp [hf]

theorem peGet_put_self {pe : PEMap} {d : String} (e : PlaybackEvent)
    (h : peContains pe d = true) : peGet (pePut pe d e) d = peGet pe d ++ [e] := by
  induction pe with
  | nil => simp [peContains] at h
  | cons p rest ih =>
    unfold pePut peGet
    by_cases hp : (p.1 == d) = true
    · simp [List.find?, hp]
    · have hrest : peContains rest d = true := by
        have hp' : (p.1 == d) = false := by simpa using hp
        unfold peContains at h ⊢
        simp only [List.any_cons, hp', Bool.false_or] at h
        exact h
      have hh := ih hrest
      unfold pePut peGet at hh
      simpa [List.find?, hp] using hh

/-! ### SpeakStream loop specification -/

theorem speakStreamLoop_spec (d : String) :
    ∀ (chunks : List TtsChunk) (st : LoopOut),
    ∃ em' : List PlaybackEvent,
      (speakStreamLoop d st chunks).emitted = st.emitted ++ em' ∧
      (∀ e ∈ em', e.eventType = "chunk_played" ∧ e.dialogId = d) ∧
      peGet (speakStreamLoop d st chunks).pe d = peGet st.pe d ++ em' ∧
      (speakStreamLoop d st chunks).fullText =
        st.fullText ++ ((upToEot chunks).map TtsChunk.text).filter (fun t => decide (t ≠ "")) ∧
      (speakStreamLoop d st chunks).synthTexts =
        st.synthTexts ++ ((upToEot chunks).map TtsChunk.text).filter (fun t => decide (t ≠ "")) ∧
      (peContains (speakStreamLoop d st chunks).pe d = true ↔
        peContains st.pe d = true ∨ em' ≠ []) ∧
      (em' = [] ↔
        ((upToEot chunks).map TtsChunk.text).filter (fun t => decide (t ≠ "")) = []) := by
  intro chunks
  induction chunks with
  | nil =>
    intro st
    exact ⟨[], by simp [speakStreamLoop, upToEot]⟩
  | cons c rest ih =>
    intro st
    by_cases htext : c.text ≠ ""
    · set ev : PlaybackEvent := ⟨"chunk_played", st.chunkCount + 1, d⟩ with hev
      set st' : LoopOut :=
        ⟨pePut (peEnsure st.pe d) d ev, st.fullText ++ [c.text], st.synthTexts ++ [c.text],
          st.chunkCount + 1, st.emitted ++ [ev]⟩ with hst'
      have hget' : peGet st'.pe d = peGet st.pe d ++ [ev] := by
        rw [hst']
        show peGet (pePut (peEnsure st.pe d) d ev) d = peGet st.pe d ++ [ev]
        rw [peGet_put_self ev (peContains_ensure_self st.pe d), peGet_ensure]
      have hcont' : peContains st'.pe d = true := by
        rw [hst']
        show peContains (pePut (peEnsure st.pe d) d ev) d = true
        rw [peContains_put]
        exact peContains_ensure_self st.pe d
      by_cases heot : c.eot = true
      · refine ⟨[ev], ?_, ?_, ?_, ?_, ?_, ?_, ?_⟩
        · simp [speakStreamLoop, htext, heot, hst']
        · intro e he
          simp only [List.mem_singleton] at he
          subst he
          exact ⟨rfl, rfl⟩
        · simpa [speakStreamLoop, htext, heot] using hget'
        · simp [speakStreamLoop, htext, heot, hst', upToEot]
        · simp [speakStreamLoop, htext, heot, hst', upToEot]
        · constructor
          · intro _; exact Or.inr (by simp)
          · intro _
            simpa [speakStreamLoop, htext, heot] using hcont'
        · simp [upToEot, heot, htext]
      · obtain ⟨em₂, h1, h2, h3, h4, h5, h6, h7⟩ := ih st'
        have hloop : speakStreamLoop d st (c :: rest) = speakStreamLoop d st' rest := by
          simp [speakStreamLoop, htext, heot, hst', hev]
        refine ⟨ev :: em₂, ?_, ?_, ?_, ?_, ?_, ?_, ?_⟩
        · rw [hloop, h1, hst']
          simp
        · intro e he
          rcases List.mem_cons.mp he with he | he
          · subst he; exact ⟨rfl, rfl⟩
          · exact h2 e he
        · rw [hloop, h3, hget']
          simp
        · rw [hloop, h4, hst']
          simp [upToEot, heot, htext]
        · rw [hloop, h5, hst']
          simp [upToEot, heot, htext]
        · rw [hloop]
          constructor
          · intro _; exact Or.inr (by simp)
          · intro _
            exact h6.mpr (Or.inl hcont')
        · simp [upToEot, heot, htext]
    · have htext' : c.text = "" := by simpa using htext
      by_cases heot : c.eot = true
      · refine ⟨[], ?_, ?_, ?_, ?_, ?_, ?_, ?_⟩
        · simp [speakStreamLoop, htext', heot]
        · intro e he; simp at he
        · simp [speakStreamLoop, htext', heot]
        · simp [speakStreamLoop, htext', heot, upToEot]
        · simp [speakStreamLoop, htext', heot, upToEot]
        · simp [speakStreamLoop, htext', heot]
        · simp [upToEot, heot, htext']
      · obtain ⟨em₂, h1, h2, h3, h4, h5, h6, h7⟩ := ih st
        have hloop : speakStreamLoop d st (c :: rest) = speakStreamLoop d st rest := by
          simp [speakStreamLoop, htext', heot]
        refine ⟨em₂, ?_, h2, ?_, ?_, ?_, ?_, ?_⟩
        · rw [hloop]; exact h1
        · rw [hloop]; exact h3
        · rw [hloop, h4]
          simp [upToEot, heot, htext']
        · rw [hloop, h5]
          simp [upToEot, heot, htext']
        · rw [hloop]; exact h6
        · rw [h7]
          simp [upToEot, heot, htext']

theorem isTerminal_of_chunkPlayed {e : PlaybackEvent} (h : e.eventType = "chunk_played") :
    isTerminal e = false := by
  unfold isTerminal
  rw [h]
  decide

theorem countP_terminal_nil {em : List PlaybackEvent}
    (h : ∀ e ∈ em, e.eventType = "chunk_played") :
    em.countP (fun e => isTerminal e) = 0 := by
  induction em with
  | nil => rfl
  | cons e t ih =>
    rw [List.countP_cons]
    rw [isTerminal_of_chunkPlayed (h e (List.mem_cons_self _ _))]
    simp [ih (fun x hx => h x (List.mem_cons_of_mem _ hx))]

theorem deliverEvents_append_finished {l : List PlaybackEvent} {f : PlaybackEvent}
    (hl : ∀ e ∈ l, (e.eventType == "finished") = false)
    (hf : (f.eventType == "finished") = true) :
    deliverEvents (l ++ [f]) = l ++ [f] := by
  induction l with
  | nil => simp [deliverEvents, hf]
  | cons e t ih =>
    have he := hl e (List.mem_cons_self _ _)
    have iht := ih (fun x hx => hl x (List.mem_cons_of_mem _ hx))
    simp only [List.cons_append, deliverEvents, he]
    rw [if_neg (by simp [he])]
    show e :: deliverEvents (t ++ [f]) = e :: (t ++ [f])
    rw [iht]

/-! ### Claim C3 — exactly one terminal playback event -/

/-- Claim C3 counterexample: the accepted `SpeakStream` call whose only
input chunk is `(text="", eot=true)` returns success, yet emits NO
terminal playback event at all: the `finished` put is guarded by
`dialog_id in self.playback_events` (tts_service.py, line 361) and the
queue is only created when a non-empty text chunk is processed, so the
`PlaybackEvents` queue for the dialog stays empty and the events
stream never delivers a `finished` or `error`. -/
theorem C3_counterexample :
    (speakStream [⟨"", true, "d0"⟩] []).success = true ∧
    (speakStream [⟨"", true, "d0"⟩] []).emitted.countP (fun e => isTerminal e) = 0 ∧
    peGet (speakStream [⟨"", true, "d0"⟩] []).events "d0" = [] := by
  refine ⟨by decide, by decide, by decide⟩

/-- Claim C3 (amended): an accepted `SpeakStream` call that processes
at least one non-empty text chunk (on a fresh events map and a
non-empty dialog id) emits exactly one terminal event, which is always
`finished`, and the `PlaybackEvents` stream delivers the dialog's
whole queue, closing right after that single terminal event. But a
call whose input carries no non-empty text before `eot` emits no
terminal event (see the counterexample), a call aborted by a
mid-stream exception returns failure with no terminal event, and no
code path ever emits an `error` event. -/
theorem C3_amended (c0 : TtsChunk) (rest : List TtsChunk)
    (hd : c0.dialogId ≠ "")
    (hany : ((upToEot (c0 :: rest)).map TtsChunk.text).filter (fun t => decide (t ≠ "")) ≠ []) :
    ((speakStream (c0 :: rest) []).success = true ∧
      (speakStream (c0 :: rest) []).emitted.countP (fun e => isTerminal e) = 1 ∧
      (∀ e ∈ (speakStream (c0 :: rest) []).emitted,
        isTerminal e = true → e.eventType = "finished") ∧
      deliverEvents (peGet (speakStream (c0 :: rest) []).events c0.dialogId) =
        peGet (speakStream (c0 :: rest) []).events c0.dialogId ∧
      (deliverEvents (peGet (speakStream (c0 :: rest) []).events c0.dialogId)).countP
        (fun e => isTerminal e) = 1) ∧
    (∀ (chunks : List TtsChunk) (pe : PEMap) (k : Nat),
      (speakStreamAborted chunks pe k).success = false ∧
      (speakStreamAborted chunks pe k).emitted.countP (fun e => isTerminal e) = 0) ∧
    (∀ (chunks : List TtsChunk) (pe : PEMap),
      ∀ e ∈ (speakStream chunks pe).emitted, ¬e.eventType = "error") := by
  obtain ⟨em', h1, h2, h3, h4, h5, h6, h7⟩ :=
    speakStreamLoop_spec c0.dialogId (c0 :: rest) ⟨[], [], [], 0, []⟩
  have hne : em' ≠ [] := fun hnil => hany (h7.mp hnil)
  have hcont : peContains
      (speakStreamLoop c0.dialogId ⟨[], [], [], 0, []⟩ (c0 :: rest)).pe c0.dialogId = true :=
    h6.mpr (Or.inr hne)
  have hss : speakStream (c0 :: rest) [] =
      ⟨true,
        (speakStreamLoop c0.dialogId ⟨[], [], [], 0, []⟩ (c0 :: rest)).chunkCount,
        (speakStreamLoop c0.dialogId ⟨[], [], [], 0, []⟩ (c0 :: rest)).fullText,
        (speakStreamLoop c0.dialogId ⟨[], [], [], 0, []⟩ (c0 :: rest)).synthTexts,
        (speakStreamLoop c0.dialogId ⟨[], [], [], 0, []⟩ (c0 :: rest)).emitted ++
          [⟨"finished",
            (speakStreamLoop c0.dialogId ⟨[], [], [], 0, []⟩ (c0 :: rest)).chunkCount,
            c0.dialogId⟩],
        pePut (speakStreamLoop c0.dialogId ⟨[], [], [], 0, []⟩ (c0 :: rest)).pe c0.dialogId
          ⟨"finished",
            (speakStreamLoop c0.dialogId ⟨[], [], [], 0, []⟩ (c0 :: rest)).chunkCount,
            c0.dialogId⟩⟩ := by
    simp only [speakStream]
    rw [if_pos ⟨hd, hcont⟩]
  have hemitted : (speakStream (c0 :: rest) []).emitted =
      em' ++ [⟨"finished",
        (speakStreamLoop c0.dialogId ⟨[], [], [], 0, []⟩ (c0 :: rest)).chunkCount,
        c0.dialogId⟩] := by
    rw [hss]
    show (speakStreamLoop c0.dialogId ⟨[], [], [], 0, []⟩ (c0 :: rest)).emitted ++ _ = _
    rw [h1]
    simp
  have hqueue : peGet (speakStream (c0 :: rest) []).events c0.dialogId =
      em' ++ [⟨"finished",
        (speakStreamLoop c0.dialogId ⟨[], [], [], 0, []⟩ (c0 :: rest)).chunkCount,
        c0.dialogId⟩] := by
    rw [hss]
    show peGet (pePut _ c0.dialogId _) c0.dialogId = _
    rw [peGet_put_self _ hcont, h3]
    simp [peGet]
  have hdeliver : deliverEvents (peGet (speakStream (c0 :: rest) []).events c0.dialogId) =
      peGet (speakStream (c0 :: rest) []).events c0.dialogId := by
    rw [hqueue]
    apply deliverEvents_append_finished
    · intro e he
      rw [(h2 e he).1]
      decide
    · rfl
  refine ⟨⟨?_, ?_, ?_, hdeliver, ?_⟩, ?_, ?_⟩
  · rw [hss]
  · rw [hemitted, List.countP_append,
      countP_terminal_nil (fun e he => (h2 e he).1)]
    rfl
  · intro e he hterm
    rw [hemitted] at he
    rcases List.mem_append.mp he with he | he
    · rw [isTerminal_of_chunkPlayed (h2 e he).1] at hterm
      cases hterm
    · simp only [List.mem_singleton] at he
      subst he
      rfl
  · rw [hdeliver, hqueue, List.countP_append,
      countP_terminal_nil (fun e he => (h2 e he).1)]
    rfl
  · intro chunks pe k
    cases chunks with
    | nil => exact ⟨rfl, rfl⟩
    | cons c tail =>
      obtain ⟨em₂, g1, g2, g3, g4, g5, g6, g7⟩ :=
        speakStreamLoop_spec c.dialogId ((c :: tail).take k) ⟨pe, [], [], 0, []⟩
      refine ⟨rfl, ?_⟩
      show (speakStreamLoop c.dialogId ⟨pe, [], [], 0, []⟩ ((c :: tail).take k)).emitted.countP
        (fun e => isTerminal e) = 0
      rw [g1]
      simpa using countP_terminal_nil (fun e he => (g2 e he).1)
  · intro chunks pe e he
    cases chunks with
    | nil => simp [speakStream] at he
    | cons c tail =>
      obtain ⟨em₂, g1, g2, g3, g4, g5, g6, g7⟩ :=
        speakStreamLoop_spec c.dialogId (c :: tail) ⟨pe, [], [], 0, []⟩
      have hcases : e ∈ em₂ ∨ e.eventType = "finished" := by
        simp only [speakStream] at he
        by_cases hcond : c.dialogId ≠ "" ∧
            peContains (speakStreamLoop c.dialogId ⟨pe, [], [], 0, []⟩ (c :: tail)).pe
              c.dialogId = true
        · rw [if_pos hcond] at he
          simp only at he
          rw [g1] at he
          simp only [List.nil_append] at he
          rcases List.mem_append.mp he with hm | hm
          · exact Or.inl hm
          · simp only [List.mem_singleton] at hm
            subst hm
            exact Or.inr rfl
        · rw [if_neg hcond] at he
          simp only at he
          rw [g1] at he
          simp only [List.nil_append] at he
          exact Or.inl he
      rcases hcases with hm | hm
      · rw [(g2 e hm).1]
        decide
      · rw [hm]
        decide

/-- Claim C3 witness: the amended claim instantiated on a concrete
two-chunk stream. -/
theorem C3_witness :
    (("d0" : String) ≠ "" ∧
      ((upToEot [⟨"hi", false, "d0"⟩, ⟨"", true, "d0"⟩]).map TtsChunk.text).filter
        (fun t => decide (t ≠ "")) ≠ []) ∧
    (speakStream [⟨"hi", false, "d0"⟩, ⟨"", true, "d0"⟩] []).emitted.countP
      (fun e => isTerminal e) = 1 :=
  ⟨⟨by decide, by decide⟩,
    ((C3_amended ⟨"hi", false, "d0"⟩ [⟨"", true, "d0"⟩] (by decide) (by decide)).1).2.1⟩

/-! ### Claim C8 — SpeakStream round-trip and playback order -/

theorem upToEot_of_eotTerminated :
    ∀ {chunks : List TtsChunk}, eotTerminated chunks = true → upToEot chunks = chunks := by
  intro chunks
  induction chunks with
  | nil => intro h; simp [eotTerminated] at h
  | cons c rest ih =>
    intro h
    cases rest with
    | nil =>
      by_cases hc : c.eot = true <;> simp [upToEot, hc]
    | cons c2 t =>
      have hh : (!c.eot && eotTerminated (c2 :: t)) = true := h
      have h' : c.eot = false ∧ eotTerminated (c2 :: t) = true := by
        rcases Bool.eq_false_or_eq_true c.eot with hc | hc
        · simp [hc] at hh
        · exact ⟨hc, by simpa [hc] using hh⟩
      rw [show upToEot (c :: c2 :: t) = c :: upToEot (c2 :: t) by
        simp [upToEot, h'.1]]
      rw [ih h'.2]

theorem strConcat_filter :
    ∀ l : List String, strConcat (l.filter (fun t => decide (t ≠ ""))) = strConcat l := by
  intro l
  induction l with
  | nil => rfl
  | cons s t ih =>
    by_cases hs : s = ""
    · subst hs
      rw [show (("" : String) :: t).filter (fun t => decide (t ≠ "")) =
        t.filter (fun t => decide (t ≠ "")) by simp [List.filter]]
      rw [ih]
      show strConcat t = "" ++ strConcat t
      rfl
    · rw [show (s :: t).filter (fun t => decide (t ≠ "")) =
        s :: t.filter (fun t => decide (t ≠ "")) by simp [List.filter, hs]]
      show s ++ strConcat (t.filter (fun t => decide (t ≠ ""))) = s ++ strConcat t
      rw [ih]

theorem fillFrom_underrun :
    ∀ (q : List (List Int)) (n : Nat), audioLenSum q ≤ n →
    (fillFrom q n).1 = q.flatten ++ List.replicate (n - audioLenSum q) 0 := by
  intro q
  induction q with
  | nil =>
    intro n _
    cases n with
    | zero => simp [fillFrom, audioLenSum]
    | succ m => simp [fillFrom, audioLenSum]
  | cons c rest ih =>
    intro n hle
    have hsum : audioLenSum (c :: rest) = c.length + audioLenSum rest := by
      simp [audioLenSum]
    cases n with
    | zero =>
      have hc0 : c.length = 0 := by omega
      have hr0 : audioLenSum rest = 0 := by omega
      have hcnil : c = [] := List.eq_nil_of_length_eq_zero hc0
      have hjoin : rest.flatten = [] := by
        apply List.eq_nil_of_length_eq_zero
        rw [List.length_flatten]
        simpa [audioLenSum] using hr0
      simp [fillFrom, hcnil, hjoin]
    | succ m =>
      have hclen : c.length ≤ m + 1 := by omega
      have hstep : fillFrom (c :: rest) (m + 1) =
          (c ++ (fillFrom rest (m + 1 - c.length)).1, (fillFrom rest (m + 1 - c.length)).2) := by
        simp only [fillFrom]
        rw [if_pos hclen]
      rw [hstep]
      have ihr := ih (m + 1 - c.length) (by omega)
      show c ++ (fillFrom rest (m + 1 - c.length)).1 = _
      rw [ihr]
      rw [show (m + 1 - c.length) - audioLenSum rest =
        (m + 1) - audioLenSum (c :: rest) by omega]
      simp

/-- Claim C8 counterexample: the playback callback can REORDER queued
audio. With queue `[[1,2,3,4,5],[9,9]]` and a 3-frame callback, the
remainder `[4,5]` of the first chunk is re-queued at the tail — behind
`[9,9]` — so the played sample order over two callbacks is
`1,2,3,9,9,4,5`, not the enqueue order `1,2,3,4,5,9,9`. The claim's
assertion that underruns never reorder queued audio is false. -/
theorem C8_counterexample :
    fillFrom [[1, 2, 3, 4, 5], [9, 9]] 3 = ([1, 2, 3], [[9, 9], [4, 5]]) ∧
    (fillFrom [[1, 2, 3, 4, 5], [9, 9]] 3).1 ++
      (fillFrom (fillFrom [[1, 2, 3, 4, 5], [9, 9]] 3).2 4).1 = [1, 2, 3, 9, 9, 4, 5] ∧
    List.flatten [[1, 2, 3, 4, 5], [9, 9]] = [1, 2, 3, 4, 5, 9, 9] ∧
    ([1, 2, 3, 9, 9, 4, 5] : List Int) ≠ [1, 2, 3, 4, 5, 9, 9] := by
  refine ⟨by decide, by decide, by decide, by decide⟩

/-- Claim C8 (amended): for any string T split into a chunk sequence
terminated by `eot=true` and submitted to `SpeakStream`, the
concatenation of the processed chunks equals T, and the non-empty
chunks are synthesized and enqueued in exactly their arrival order;
a true underrun (queue shorter than the requested frames) is padded
with silence without dropping audio. However, the playback callback
re-queues the unplayed remainder of a partially consumed chunk at the
TAIL of the queue, so queued audio CAN be reordered whenever a chunk
spans a callback boundary while later chunks are already queued (see
the counterexample). -/
theorem C8_amended (T : String) (chunks : List TtsChunk) (pe0 : PEMap)
    (hterm : eotTerminated chunks = true)
    (hjoin : strConcat (chunks.map TtsChunk.text) = T) :
    strConcat (speakStream chunks pe0).fullText = T ∧
    (speakStream chunks pe0).synthTexts =
      (chunks.map TtsChunk.text).filter (fun t => decide (t ≠ "")) ∧
    (∀ (q : List (List Int)) (n : Nat), audioLenSum q ≤ n →
      (fillFrom q n).1 = q.flatten ++ List.replicate (n - audioLenSum q) 0) := by
  have hchunks : upToEot chunks = chunks := upToEot_of_eotTerminated hterm
  cases chunks with
  | nil => simp [eotTerminated] at hterm
  | cons c0 rest =>
    obtain ⟨em', h1, h2, h3, h4, h5, h6, h7⟩ :=
      speakStreamLoop_spec c0.dialogId (c0 :: rest) ⟨pe0, [], [], 0, []⟩
    have hfull : (speakStream (c0 :: rest) pe0).fullText =
        (((c0 :: rest).map TtsChunk.text).filter (fun t => decide (t ≠ ""))) := by
      simp only [speakStream]
      by_cases hcond : c0.dialogId ≠ "" ∧
          peContains (speakStreamLoop c0.dialogId ⟨pe0, [], [], 0, []⟩ (c0 :: rest)).pe
            c0.dialogId = true
      · rw [if_pos hcond]
        show (speakStreamLoop c0.dialogId ⟨pe0, [], [], 0, []⟩ (c0 :: rest)).fullText = _
        rw [h4, hchunks]
        simp
      · rw [if_neg hcond]
        show (speakStreamLoop c0.dialogId ⟨pe0, [], [], 0, []⟩ (c0 :: rest)).fullText = _
        rw [h4, hchunks]
        simp
    have hsynth : (speakStream (c0 :: rest) pe0).synthTexts =
        (((c0 :: rest).map TtsChunk.text).filter (fun t => decide (t ≠ ""))) := by
      simp only [speakStream]
      by_cases hcond : c0.dialogId ≠ "" ∧
          peContains (speakStreamLoop c0.dialogId ⟨pe0, [], [], 0, []⟩ (c0 :: rest)).pe
            c0.dialogId = true
      · rw [if_pos hcond]
        show (speakStreamLoop c0.dialogId ⟨pe0, [], [], 0, []⟩ (c0 :: rest)).synthTexts = _
        rw [h5, hchunks]
        simp
      · rw [if_neg hcond]
        show (speakStreamLoop c0.dialogId ⟨pe0, [], [], 0, []⟩ (c0 :: rest)).synthTexts = _
        rw [h5, hchunks]
        simp
    refine ⟨?_, hsynth, fillFrom_underrun⟩
    rw [hfull, strConcat_filter, hjoin]

/-- Claim C8 witness: the amended claim instantiated on the string
"abcd" split into two chunks. -/
theorem C8_witness :
    (eotTerminated [⟨"ab", false, "d0"⟩, ⟨"cd", true, "d0"⟩] = true ∧
      strConcat ([⟨"ab", false, "d0"⟩, ⟨"cd", true, "d0"⟩].map TtsChunk.text) = "abcd") ∧
    (strConcat (speakStream [⟨"ab", false, "d0"⟩, ⟨"cd", true, "d0"⟩] []).fullText = "abcd" ∧
      (speakStream [⟨"ab", false, "d0"⟩, ⟨"cd", true, "d0"⟩] []).synthTexts =
        (([⟨"ab", false, "d0"⟩, ⟨"cd", true, "d0"⟩].map TtsChunk.text)).filter
          (fun t => decide (t ≠ "")) ∧
      (∀ (q : List (List Int)) (n : Nat), audioLenSum q ≤ n →
        (fillFrom q n).1 = q.flatten ++ List.replicate (n - audioLenSum q) 0)) :=
  ⟨⟨by decide, by decide⟩,
    C8_amended "abcd" [⟨"ab", false, "d0"⟩, ⟨"cd", true, "d0"⟩] [] (by decide) (by decide)⟩

end AlexaW
